import Mathlib

/-!
Verification of the volume spec-record transaction machinery of the mayastor
control plane, embedded shallowly from
`common/src/types/v0/store/volume.rs` and
`control-plane/csi-controller/src/client.rs`.

Identifier newtypes (`VolumeId`, `NodeId`, `NexusId`, `ReplicaId`) are string
wrappers whose `to_string` is the wrapped string; they are modelled as
`String` directly.
-/

namespace Mayastor

/-- Node identifier (string newtype). -/
abbrev NodeId := String

/-- Nexus identifier (uuid string newtype). -/
abbrev NexusId := String

/-- Volume identifier (uuid string newtype); `to_string` yields the wrapped
string, so the model identifies the id with its string form. -/
abbrev VolumeId := String

/-- Replica identifier (uuid string newtype). -/
abbrev ReplicaId := String

/-- Volume labels are plain strings (`type VolumeLabel = String`). -/
abbrev VolumeLabel := String

/-- Modelled from the spec: `VolumeShareProtocol`, the protocols a volume may
be shared over (its definition lives in the message-bus types, outside the
provided sources; only its role as a share-protocol enum is used here). -/
inductive VolumeShareProtocol where
  | nvmf
  | iscsi
deriving DecidableEq

/-- Modelled from the spec: `Protocol`, the sharing state of a resource;
`Protocol::None` means not shared. Defined outside the provided sources; the
code under verification uses only `Protocol::None` and `Protocol::from` of a
`VolumeShareProtocol`. -/
inductive Protocol where
  | none
  | nvmf
  | iscsi
deriving DecidableEq

/-- Modelled from the spec: the `From<VolumeShareProtocol> for Protocol`
injection used by `commit_op` (`share.into()` / `Protocol::from`). -/
def Protocol.fromShare : VolumeShareProtocol → Protocol
  | .nvmf => .nvmf
  | .iscsi => .iscsi

/-- Modelled from the spec: the message-bus runtime `VolumeStatus`; the code
under verification uses only the `Online` variant (plus `Unknown`
elsewhere). -/
inductive VolumeStatus where
  | unknown
  | online
  | degraded
  | faulted
deriving DecidableEq

/-- Modelled from the spec: the generic `SpecStatus<T>` lifecycle enum, always
including `Creating`, `Created(T)`, `Deleting`, `Deleted`. -/
inductive SpecStatus (T : Type) where
  | creating
  | created (t : T)
  | deleting
  | deleted
deriving DecidableEq

/-- `VolumeSpecStatus = SpecStatus<message_bus::VolumeStatus>`. -/
abbrev VolumeSpecStatus := SpecStatus VolumeStatus

/-- Volume Target (node and nexus), from `volume.rs`. -/
structure VolumeTarget where
  node : NodeId
  nexus : NexusId
deriving DecidableEq

/-- `VolumeTarget::new`. -/
def VolumeTarget.new (node : NodeId) (nexus : NexusId) : VolumeTarget :=
  { node := node, nexus := nexus }

/-- Modelled from the spec: explicit placement topology (allowed and preferred
nodes), defined outside the provided sources and carried opaquely by the
record operations verified here. -/
structure ExplicitTopology where
  allowed_nodes : List NodeId
  preferred_nodes : List NodeId
deriving DecidableEq

/-- Modelled from the spec: replica placement topology, carried opaquely. -/
structure Topology where
  explicit : Option ExplicitTopology
deriving DecidableEq

/-- Modelled from the spec: volume healing policy, defined outside the
provided sources and carried opaquely by the operations verified here. -/
structure VolumeHealPolicy where
  self_heal : Bool
deriving DecidableEq

/-- Modelled from the spec: the per-resource `OperationSequence` exclusivity
token, constructed from the resource uuid; never serialized. Its lock state
is opaque to the record operations verified here. -/
structure OperationSequence where
  uuid : String
  state : Nat
deriving DecidableEq

/-- `OperationSequence::new(uuid)`: a fresh (unlocked) sequencer. -/
def OperationSequence.new (uuid : String) : OperationSequence :=
  { uuid := uuid, state := 0 }

/-- Available Volume Operations (`enum VolumeOperation` in `volume.rs`).
`SetReplica` carries a `u8` count, modelled as `Nat` (the fold copies it
verbatim, no arithmetic is performed on it). -/
inductive VolumeOperation where
  | create
  | destroy
  | share (protocol : VolumeShareProtocol)
  | unshare
  | setReplica (count : Nat)
  | publish (node : NodeId) (nexus : NexusId) (share : Option VolumeShareProtocol)
  | unpublish
  | removeUnusedReplica (replica : ReplicaId)
deriving DecidableEq

/-- Operation State for a volume spec resource (`VolumeOperationState`). -/
structure VolumeOperationState where
  operation : VolumeOperation
  result : Option Bool
deriving DecidableEq

/-- User specification of a volume (`struct VolumeSpec` in `volume.rs`).
`size` is a `u64` and `num_replicas` a `u8`, modelled as `Nat` (the
operations verified here copy them verbatim). -/
structure VolumeSpec where
  uuid : VolumeId
  size : Nat
  labels : List VolumeLabel
  num_replicas : Nat
  protocol : Protocol
  status : VolumeSpecStatus
  target : Option VolumeTarget
  policy : VolumeHealPolicy
  topology : Topology
  sequencer : OperationSequence
  last_nexus_id : Option NexusId
  operation : Option VolumeOperationState
deriving DecidableEq

namespace VolumeSpec

/-- `SpecTransaction::pending_op`: true iff an operation record is present. -/
def pending_op (s : VolumeSpec) : Bool :=
  s.operation.isSome

/-- `SpecTransaction::clear_op`: discard the pending operation. -/
def clear_op (s : VolumeSpec) : VolumeSpec :=
  { s with operation := none }

/-- `SpecTransaction::commit_op`: fold the pending operation's effect into the
record (per-operation match in `volume.rs`), then `clear_op`. -/
def commit_op (s : VolumeSpec) : VolumeSpec :=
  let folded :=
    match s.operation with
    | some op =>
      match op.operation with
      | .destroy => { s with status := SpecStatus.deleted }
      | .create => { s with status := SpecStatus.created VolumeStatus.online }
      | .share share => { s with protocol := Protocol.fromShare share }
      | .unshare => { s with protocol := Protocol.none }
      | .setReplica count => { s with num_replicas := count }
      | .removeUnusedReplica _ => s
      | .publish node nexus share =>
        { s with
          target := some (VolumeTarget.new node nexus),
          last_nexus_id := some nexus,
          protocol :=
            match share with
            | Option.none => Protocol.none
            | Option.some p => Protocol.fromShare p }
      | .unpublish => { s with target := none, protocol := Protocol.none }
    | none => s
  folded.clear_op

/-- `SpecTransaction::start_op`: record the operation as pending with an
unknown result. -/
def start_op (s : VolumeSpec) (operation : VolumeOperation) : VolumeSpec :=
  { s with operation := some { operation := operation, result := none } }

/-- `SpecTransaction::set_op_result`: record the executor's outcome into the
pending operation; no-op when no operation is pending. -/
def set_op_result (s : VolumeSpec) (result : Bool) : VolumeSpec :=
  match s.operation with
  | some op => { s with operation := some { op with result := some result } }
  | none => s

/-- `VolumeSpec::desired_num_replicas`: the count carried by a pending
`SetReplica`, otherwise the current `num_replicas`. -/
def desired_num_replicas (s : VolumeSpec) : Nat :=
  match s.operation with
  | some operation =>
    match operation.operation with
    | .setReplica count => count
    | _ => s.num_replicas
  | _ => s.num_replicas

end VolumeSpec

/-- Resource-kind tags of the persistent store (`StorableObjectType`); the
enum is defined outside the provided sources, its `VolumeSpec` and
`VolumeState` variants are the ones used by `volume.rs`. -/
inductive StorableObjectType where
  | volumeSpec
  | volumeState
deriving DecidableEq

/-- Key used by the store to uniquely identify a `VolumeSpec` structure. -/
structure VolumeSpecKey where
  id : VolumeId
deriving DecidableEq

/-- Key used by the store to uniquely identify a `VolumeState` structure. -/
structure VolumeStateKey where
  id : VolumeId
deriving DecidableEq

/-- `ObjectKey::key_type` for `VolumeSpecKey`. -/
def VolumeSpecKey.key_type (_ : VolumeSpecKey) : StorableObjectType :=
  StorableObjectType.volumeSpec

/-- `ObjectKey::key_uuid` for `VolumeSpecKey`: the id's string form. -/
def VolumeSpecKey.key_uuid (k : VolumeSpecKey) : String :=
  k.id

/-- The composite store key of a `VolumeSpec` record: kind tag paired with the
id's string form. -/
def VolumeSpecKey.key (k : VolumeSpecKey) : StorableObjectType × String :=
  (k.key_type, k.key_uuid)

/-- `ObjectKey::key_type` for `VolumeStateKey`. -/
def VolumeStateKey.key_type (_ : VolumeStateKey) : StorableObjectType :=
  StorableObjectType.volumeState

/-- `ObjectKey::key_uuid` for `VolumeStateKey`: the id's string form. -/
def VolumeStateKey.key_uuid (k : VolumeStateKey) : String :=
  k.id

/-- The composite store key of a `VolumeState` record. -/
def VolumeStateKey.key (k : VolumeStateKey) : StorableObjectType × String :=
  (k.key_type, k.key_uuid)

/-- Modelled from the spec: the message-bus `CreateVolume` request, defined
outside the provided sources; only the fields consumed by
`From<&CreateVolume> for VolumeSpec` are modelled. `replicas` is a `u64` in
the request and is cast `as u8` when building the spec. -/
structure CreateVolume where
  uuid : VolumeId
  size : Nat
  replicas : Nat
  policy : VolumeHealPolicy
  topology : Topology
deriving DecidableEq

/-- `From<&CreateVolume> for VolumeSpec` (`volume.rs`): the fresh spec derived
from a creation request. The `as u8` cast is `% 256`. -/
def VolumeSpec.fromCreate (request : CreateVolume) : VolumeSpec :=
  { uuid := request.uuid
    size := request.size
    labels := []
    num_replicas := request.replicas % 256
    protocol := Protocol.none
    status := SpecStatus.creating
    target := none
    policy := request.policy
    topology := request.topology
    sequencer := OperationSequence.new request.uuid
    last_nexus_id := none
    operation := none }

/-- `PartialEq<CreateVolume> for VolumeSpec` (`volume.rs`): build the spec
derived from the request, overwrite its `status` and `sequencer` with ours,
then compare structurally (derived `PartialEq` over all fields). -/
def VolumeSpec.eqCreate (s : VolumeSpec) (other : CreateVolume) : Bool :=
  let o := VolumeSpec.fromCreate other
  let o := { o with status := s.status, sequencer := s.sequencer }
  decide (o = s)

/-- HTTP status codes distinguished by `MayastorApiClient::do_delete`
(`client.rs`); every other code is collapsed into `other`. -/
inductive StatusCode where
  | ok
  | notFound
  | noContent
  | preconditionFailed
  | other (code : Nat)
deriving DecidableEq

/-- `ApiClientError` kinds produced by the delete path of `client.rs`;
the formatted message strings are elided. -/
inductive ApiClientError where
  | serverCommunicationError
  | resourceNotExists
  | genericOperationError
deriving DecidableEq

/-- `MayastorApiClient::do_delete` status handling (`client.rs`): `OK` is
success; `NOT_FOUND`, `NO_CONTENT` and `PRECONDITION_FAILED` are success when
`idempotent` is requested and a `ResourceNotExists` error otherwise; any other
code is a `GenericOperationError`. The model takes the response's status code
(transport failures, which yield `ServerCommunicationError`, are outside this
function's status match). -/
def do_delete (status : StatusCode) (idempotent : Bool) : Except ApiClientError Unit :=
  match status with
  | .ok => Except.ok ()
  | .notFound | .noContent | .preconditionFailed =>
    if idempotent then Except.ok () else Except.error ApiClientError.resourceNotExists
  | .other _ => Except.error ApiClientError.genericOperationError

/-- `MayastorApiClient::delete_volume` (`client.rs`): DELETE on the volume,
with `idempotent = true`. -/
def delete_volume (status : StatusCode) : Except ApiClientError Unit :=
  do_delete status true

/-- `MayastorApiClient::unpublish_volume` (`client.rs`): DELETE on the
volume's target, with `idempotent = false`. -/
def unpublish_volume (status : StatusCode) : Except ApiClientError Unit :=
  do_delete status false

/-! Concrete sample records used by witnesses and counterexamples. -/

/-- A sample sequencer for the sample records. -/
def sampleSeq : OperationSequence :=
  OperationSequence.new "f1e157cf-6bb1-4b88-9a2b-9b7c29914b7e"

/-- A sample volume spec with no pending operation. -/
def baseSpec : VolumeSpec :=
  { uuid := "f1e157cf-6bb1-4b88-9a2b-9b7c29914b7e"
    size := 1024
    labels := []
    num_replicas := 1
    protocol := Protocol.none
    status := SpecStatus.creating
    target := none
    policy := { self_heal := false }
    topology := { explicit := none }
    sequencer := sampleSeq
    last_nexus_id := none
    operation := none }

/-- The sample spec with a `Create` operation pending. -/
def pendingSpec : VolumeSpec :=
  { baseSpec with
    operation := some { operation := VolumeOperation.create, result := none } }

/-- The sample spec with a `SetReplica 3` operation pending. -/
def setReplicaSpec : VolumeSpec :=
  { baseSpec with
    operation := some { operation := VolumeOperation.setReplica 3, result := none } }

/-- A sample creation request matching `baseSpec`. -/
def reqSample : CreateVolume :=
  { uuid := "f1e157cf-6bb1-4b88-9a2b-9b7c29914b7e"
    size := 1024
    replicas := 1
    policy := { self_heal := false }
    topology := { explicit := none } }

end Mayastor

namespace Mayastor

/-- The absent-resource HTTP statuses grouped by `do_delete`: the DELETE
response reported the resource absent. -/
def StatusCode.absent : StatusCode → Bool
  | .notFound | .noContent | .preconditionFailed => true
  | _ => false

/-- C1: for every `VolumeSpec` whose `operation` field is `Some`, `commit_op`
folds exactly the per-operation rule into the record and clears `operation`
to `None`: `Destroy` sets status `Deleted`; `Create` sets status
`Created(Online)`; `Share(p)` sets the protocol to `p`; `Unshare` sets it to
`None`; `SetReplica(n)` sets `num_replicas` to `n`; `RemoveUnusedReplica`
changes no configuration field; `Publish(node, nexus, share)` sets the
target, records the last nexus and sets the protocol (or `None` when `share`
is absent); `Unpublish` clears the target and resets the protocol; no other
field changes. -/
theorem commit_op_folds_operation (s : VolumeSpec) (os : VolumeOperationState)
    (h : s.operation = some os) :
    s.commit_op =
      match os.operation with
      | .destroy => { s with status := SpecStatus.deleted, operation := none }
      | .create =>
        { s with status := SpecStatus.created VolumeStatus.online, operation := none }
      | .share p => { s with protocol := Protocol.fromShare p, operation := none }
      | .unshare => { s with protocol := Protocol.none, operation := none }
      | .setReplica n => { s with num_replicas := n, operation := none }
      | .publish node nexus share =>
        { s with
          target := some (VolumeTarget.new node nexus),
          last_nexus_id := some nexus,
          protocol :=
            match share with
            | Option.none => Protocol.none
            | Option.some p => Protocol.fromShare p,
          operation := none }
      | .unpublish =>
        { s with target := none, protocol := Protocol.none, operation := none }
      | .removeUnusedReplica _ => { s with operation := none } := by
  obtain ⟨op, r⟩ := os
  cases op <;> simp [VolumeSpec.commit_op, VolumeSpec.clear_op, h]

/-- C1 witness: committing a pending `Create` on the sample spec. -/
theorem commit_op_folds_operation_witness :
    Mayastor.pendingSpec.commit_op =
      { Mayastor.pendingSpec with
        status := SpecStatus.created VolumeStatus.online, operation := none } :=
  commit_op_folds_operation pendingSpec
    { operation := VolumeOperation.create, result := none } rfl

/-- C2 counterexample: `start_op` is not rejected while an operation is
pending — on a spec with a pending `Create` it still installs the new
operation record (and so does change the record). -/
theorem start_op_not_rejected_when_pending :
    Mayastor.pendingSpec.pending_op = true ∧
    (Mayastor.pendingSpec.start_op VolumeOperation.destroy).operation =
      some { operation := VolumeOperation.destroy, result := none } ∧
    Mayastor.pendingSpec.start_op VolumeOperation.destroy ≠ Mayastor.pendingSpec := by
  refine ⟨rfl, rfl, ?_⟩
  decide

/-- C2 amended: `start_op` unconditionally sets
`operation = Some {operation := op, result := None}` and changes no other
field; it performs no pending check itself — rejecting a second operation
while one is pending is the caller's (Operation Sequencer's) responsibility. -/
theorem start_op_sets_operation_unconditionally (s : VolumeSpec) (op : VolumeOperation) :
    s.start_op op = { s with operation := some { operation := op, result := none } } :=
  rfl

/-- C3 counterexample: on a spec that already has a pending operation,
`start_op` then `clear_op` does not restore the original record (the
previously pending operation is lost). -/
theorem start_clear_not_identity_on_pending :
    (Mayastor.pendingSpec.start_op VolumeOperation.destroy).clear_op ≠
      Mayastor.pendingSpec := by
  decide

/-- C3 amended: on a spec with no pending operation, `start_op` followed by
`clear_op` restores the record field-for-field (in general the composite
yields the record with `operation` cleared). -/
theorem clear_after_start_restores_unpending (s : VolumeSpec) (op : VolumeOperation)
    (h : s.operation = none) :
    (s.start_op op).clear_op = s := by
  cases s
  simp_all [VolumeSpec.start_op, VolumeSpec.clear_op]

/-- C3 witness: start then clear on the sample spec without a pending
operation. -/
theorem clear_after_start_restores_unpending_witness :
    (Mayastor.baseSpec.start_op VolumeOperation.create).clear_op = Mayastor.baseSpec :=
  clear_after_start_restores_unpending baseSpec VolumeOperation.create rfl

/-- C4: the record produced by `commit_op` does not depend on the pending
operation's `result` field — committing after `set_op_result r` gives the
same record as committing directly, for either boolean, so resuming from a
persisted record with `result = Some(true)` reaches the same final record as
an uninterrupted commit. -/
theorem commit_op_ignores_result (s : VolumeSpec) (r : Bool) :
    (s.set_op_result r).commit_op = s.commit_op := by
  cases hs : s.operation with
  | none => simp [VolumeSpec.set_op_result, hs]
  | some os =>
    obtain ⟨op, res⟩ := os
    cases op <;>
      simp [VolumeSpec.set_op_result, VolumeSpec.commit_op, VolumeSpec.clear_op, hs]

/-- C5 counterexample: the `PartialEq<CreateVolume>` comparison does not
ignore the `operation` field — the spec derived from the sample request is
equivalent to the request, but the same spec with a pending `Create`
operation is not. -/
theorem eqCreate_sensitive_to_operation :
    VolumeSpec.eqCreate (VolumeSpec.fromCreate Mayastor.reqSample) Mayastor.reqSample = true ∧
    VolumeSpec.eqCreate
      { VolumeSpec.fromCreate Mayastor.reqSample with
        operation := some { operation := VolumeOperation.create, result := none } }
      Mayastor.reqSample = false := by
  constructor <;> decide

/-- C5 amended: the equivalence comparison with a creation request ignores
the sequencer and the status lifecycle field (overwritten from the spec
before comparing), but not the `operation` field: a spec with a pending
operation is never equivalent to a creation request. -/
theorem eqCreate_ignores_status_sequencer_not_operation
    (s : VolumeSpec) (r : CreateVolume) (st : VolumeSpecStatus) (sq : OperationSequence) :
    VolumeSpec.eqCreate { s with status := st, sequencer := sq } r =
      VolumeSpec.eqCreate s r ∧
    (s.operation ≠ none → VolumeSpec.eqCreate s r = false) := by
  constructor
  · simp only [VolumeSpec.eqCreate]
    rw [decide_eq_decide]
    cases s
    simp [VolumeSpec.fromCreate, VolumeSpec.mk.injEq]
  · intro h
    simp only [VolumeSpec.eqCreate]
    rw [decide_eq_false_iff_not]
    intro he
    have h2 := congrArg VolumeSpec.operation he
    simp [VolumeSpec.fromCreate] at h2
    exact h h2.symm

/-- C5 witness: the sample spec with a pending operation is not equivalent to
the sample creation request. -/
theorem eqCreate_ignores_status_sequencer_not_operation_witness :
    VolumeSpec.eqCreate Mayastor.pendingSpec Mayastor.reqSample = false :=
  (eqCreate_ignores_status_sequencer_not_operation pendingSpec reqSample
    SpecStatus.creating sampleSeq).2 (by decide)

/-- C6 counterexample: when the HTTP DELETE reports the resource absent
(`NOT_FOUND`), `delete_volume` returns success but `unpublish_volume`
returns a `ResourceNotExists` error — it passes `idempotent = false`. -/
theorem unpublish_absent_is_error :
    Mayastor.delete_volume StatusCode.notFound = Except.ok () ∧
    Mayastor.unpublish_volume StatusCode.notFound =
      Except.error ApiClientError.resourceNotExists :=
  ⟨rfl, rfl⟩

/-- C6 amended: on every DELETE status reporting the resource absent,
`delete_volume` (which passes `idempotent = true`) returns success, while
`unpublish_volume` (which passes `idempotent = false`) returns a
`ResourceNotExists` error rather than success. -/
theorem delete_idempotent_unpublish_not (c : StatusCode) (h : c.absent = true) :
    Mayastor.delete_volume c = Except.ok () ∧
    Mayastor.unpublish_volume c = Except.error ApiClientError.resourceNotExists := by
  cases c <;>
    simp_all [StatusCode.absent, Mayastor.delete_volume, Mayastor.unpublish_volume,
      Mayastor.do_delete]

/-- C6 witness: the amended behavior at the `NOT_FOUND` status. -/
theorem delete_idempotent_unpublish_not_witness :
    Mayastor.delete_volume StatusCode.notFound = Except.ok () ∧
    Mayastor.unpublish_volume StatusCode.notFound =
      Except.error ApiClientError.resourceNotExists :=
  delete_idempotent_unpublish_not StatusCode.notFound rfl

/-- C7: `set_op_result r` records `r` into the pending operation's `result`
field when an operation is pending (leaving its kind and every other field
of the record unchanged), and is a no-op when `operation` is `None`. -/
theorem set_op_result_spec (s : VolumeSpec) (r : Bool) :
    (s.operation = none → s.set_op_result r = s) ∧
    (∀ os, s.operation = some os →
      s.set_op_result r =
        { s with operation := some { operation := os.operation, result := some r } }) := by
  constructor
  · intro h
    simp [VolumeSpec.set_op_result, h]
  · intro os h
    simp [VolumeSpec.set_op_result, h]

/-- C7 witness: recording a success outcome on the sample pending spec. -/
theorem set_op_result_spec_witness :
    Mayastor.pendingSpec.set_op_result true =
      { Mayastor.pendingSpec with
        operation := some { operation := VolumeOperation.create, result := some true } } :=
  (set_op_result_spec pendingSpec true).2
    { operation := VolumeOperation.create, result := none } rfl

/-- C8: the store key of a volume's `VolumeSpec` record is the pair of the
`VolumeSpec` kind tag and the id's string form, the key of its `VolumeState`
record uses the `VolumeState` kind tag; keys of different kinds never
collide, and keys of the same kind collide exactly when the id strings are
equal. -/
theorem volume_store_keys (a b : VolumeId) :
    VolumeSpecKey.key { id := a } = (StorableObjectType.volumeSpec, a) ∧
    VolumeStateKey.key { id := a } = (StorableObjectType.volumeState, a) ∧
    VolumeSpecKey.key { id := a } ≠ VolumeStateKey.key { id := b } ∧
    (VolumeSpecKey.key { id := a } = VolumeSpecKey.key { id := b } ↔ a = b) ∧
    (VolumeStateKey.key { id := a } = VolumeStateKey.key { id := b } ↔ a = b) := by
  refine ⟨rfl, rfl, ?_, ?_, ?_⟩ <;>
    simp [VolumeSpecKey.key, VolumeStateKey.key, VolumeSpecKey.key_type,
      VolumeStateKey.key_type, VolumeSpecKey.key_uuid, VolumeStateKey.key_uuid,
      Prod.ext_iff]

/-- C8 witness: the two kinds of keys differ even for the same id string. -/
theorem volume_store_keys_witness :
    VolumeSpecKey.key { id := "v" } ≠ VolumeStateKey.key { id := "v" } :=
  (volume_store_keys "v" "v").2.2.1

/-- C9: `desired_num_replicas` returns the count carried by a pending
`SetReplica` operation, and otherwise (no pending operation, or a pending
operation of any other kind) the record's current `num_replicas`. -/
theorem desired_num_replicas_spec (s : VolumeSpec) :
    (∀ n res,
      s.operation = some { operation := VolumeOperation.setReplica n, result := res } →
      s.desired_num_replicas = n) ∧
    (s.operation = none → s.desired_num_replicas = s.num_replicas) ∧
    (∀ os, s.operation = some os →
      (∀ n, os.operation ≠ VolumeOperation.setReplica n) →
      s.desired_num_replicas = s.num_replicas) := by
  refine ⟨?_, ?_, ?_⟩
  · intro n res h
    simp [VolumeSpec.desired_num_replicas, h]
  · intro h
    simp [VolumeSpec.desired_num_replicas, h]
  · intro os h hn
    obtain ⟨op, res⟩ := os
    cases op <;>
      first
      | exact absurd rfl (hn _)
      | simp [VolumeSpec.desired_num_replicas, h]

/-- C9 witness: a pending `SetReplica 3` on the sample spec yields 3. -/
theorem desired_num_replicas_spec_witness :
    Mayastor.setReplicaSpec.desired_num_replicas = 3 :=
  (desired_num_replicas_spec setReplicaSpec).1 3 none rfl

/-- C10: committing with no pending operation leaves every field of the
record unchanged — the fold is skipped and clearing the absent operation is
the identity. -/
theorem commit_op_noop_without_operation (s : VolumeSpec) (h : s.operation = none) :
    s.commit_op = s := by
  cases s
  simp_all [VolumeSpec.commit_op, VolumeSpec.clear_op]

/-- C10 witness: committing the sample spec with no pending operation. -/
theorem commit_op_noop_without_operation_witness :
    Mayastor.baseSpec.commit_op = Mayastor.baseSpec :=
  commit_op_noop_without_operation baseSpec rfl

end Mayastor
